import Mathlib

/-!
Shallow embedding of the batched-concurrent fetch-with-retry worker in
src/main.ts: the response classifier and per-item retry loop
(fetchGuildCount, lines 19-58), the per-item processing step (processApp,
lines 67-83), the batch scheduler with sub-round retries
(updateAllApplications, lines 85-161), the startup configuration check
(lines 5-12), and the final success/failure tally (lines 147-155).
Time-dependent fields (elapsed seconds) are not modelled; sleeps are
recorded symbolically as the millisecond arguments passed to setTimeout.
-/

/-- JavaScript number as discriminated by a typeof test: NaN or a finite
integer (the endpoint returns integer counts). -/
inductive JsNum where
  | nan : JsNum
  | val : Int → JsNum
deriving DecidableEq

/-- A JSON field value as seen by a typeof check: a number (possibly NaN) or
any value of another type. -/
inductive JsVal where
  | num : JsNum → JsVal
  | nonNum : JsVal
deriving DecidableEq

/-- The optional directory_entry object of a 2xx response body. -/
structure DirectoryEntry where
  guild_count : Option JsVal
deriving DecidableEq

/-- The optional guild object of a 2xx response body. -/
structure GuildInfo where
  approximate_member_count : Option JsVal
deriving DecidableEq

/-- Parsed 2xx JSON body of the remote endpoint; both objects are optional. -/
structure ResponseBody where
  directory_entry : Option DirectoryEntry
  guild : Option GuildInfo
deriving DecidableEq

/-- Lines 45-51 of src/main.ts: return directory_entry.guild_count when
directory_entry is truthy and the field is typeof number; else
guild.approximate_member_count under the same test; else null (none). -/
def extractCount (data : ResponseBody) : Option JsNum :=
  match data.directory_entry.bind DirectoryEntry.guild_count with
  | some (JsVal.num x) => some x
  | _ =>
    match data.guild.bind GuildInfo.approximate_member_count with
    | some (JsVal.num x) => some x
    | _ => none

/-- Maximal run of decimal digits at the head of a character list. -/
def leadingDigits (cs : List Char) : List Char := cs.takeWhile Char.isDigit

/-- Value of a decimal digit run. -/
def digitsToNat (ds : List Char) : Nat :=
  ds.foldl (fun a c => a * 10 + (c.toNat - 48)) 0

/-- JavaScript parseInt(s, 10): skip leading whitespace, optional sign, then a
maximal digit run; none models NaN (no digits found). -/
def jsParseInt (s : String) : Option Int :=
  let cs := s.data.dropWhile Char.isWhitespace
  match cs with
  | '-' :: rest =>
    if (leadingDigits rest).isEmpty then none
    else some (-(digitsToNat (leadingDigits rest) : Int))
  | '+' :: rest =>
    if (leadingDigits rest).isEmpty then none
    else some ((digitsToNat (leadingDigits rest) : Int))
  | _ =>
    if (leadingDigits cs).isEmpty then none
    else some ((digitsToNat (leadingDigits cs) : Int))

/-- One attempt's outcome as classified by fetchGuildCount (src/main.ts
lines 26-56): HTTP 429 with the raw Retry-After header (none when absent),
a 2xx body, a non-2xx non-429 status (thrown, then caught), or a
network-level failure / timeout / malformed body (also caught). -/
inductive HttpResponse where
  | rateLimited : Option String → HttpResponse
  | ok : ResponseBody → HttpResponse
  | httpError : Nat → HttpResponse
  | networkError : HttpResponse
deriving DecidableEq

/-- Value returned by fetchGuildCount on normal termination: a number
(possibly NaN) or null. -/
inductive FetchResult where
  | value : JsNum → FetchResult
  | nullResult : FetchResult
deriving DecidableEq

/-- JavaScript truthiness of a string header value: null and the empty string
are falsy. -/
def jsTruthyHeader : Option String → Bool
  | none => false
  | some s => !s.isEmpty

/-- The while-true retry loop of fetchGuildCount (src/main.ts lines 22-57),
run against a finite list of attempt outcomes, threading the backoff delay
(milliseconds). Returns the result (none when the outcome list is exhausted
with the loop still demanding another attempt) and the list of setTimeout
wait arguments in order; an Option Int of none models a NaN wait (parseInt
failed), which setTimeout treats as no wait. -/
def fetchLoop : List HttpResponse → Nat → Option FetchResult × List (Option Int)
  | [], _ => (none, [])
  | HttpResponse.rateLimited h :: rest, delay =>
    let waitTime : Option Int :=
      if jsTruthyHeader h then (jsParseInt (h.getD "")).map (fun v => v * 1000)
      else some (delay : Int)
    let next := fetchLoop rest (min (delay * 2) 60000)
    (next.1, waitTime :: next.2)
  | HttpResponse.ok body :: _, _ =>
    match extractCount body with
    | some x => (some (FetchResult.value x), [])
    | none => (some FetchResult.nullResult, [])
  | HttpResponse.httpError _ :: rest, delay =>
    let next := fetchLoop rest (min (delay * 2) 60000)
    (next.1, some (delay : Int) :: next.2)
  | HttpResponse.networkError :: rest, delay =>
    let next := fetchLoop rest (min (delay * 2) 60000)
    (next.1, some (delay : Int) :: next.2)

/-- fetchGuildCount (src/main.ts line 19): the retry loop started with the
initial 1000 ms backoff delay (line 21). -/
def fetchGuildCount (responses : List HttpResponse) : Option FetchResult × List (Option Int) :=
  fetchLoop responses 1000

/-- Milliseconds actually waited by setTimeout for a given wait argument:
NaN (none) and negative values wait 0 ms. -/
def effectiveWaitMs : Option Int → Nat
  | none => 0
  | some i => i.toNat

/-- One registered application row: id addresses the remote resource, bot_id
is the persistence correlation key. -/
structure App where
  id : String
  bot_id : String
deriving DecidableEq

/-- The value part of processApp's fulfilled result (elapsed time omitted). -/
structure ItemResult where
  success : Bool
  guildCount : Option JsNum
deriving DecidableEq

/-- Settled state of one processApp promise: fulfilled with an ItemResult,
rejected (the sink insert threw), or pending forever (the fetch loop never
returned within the supplied outcomes). Each state carries the list of
(bot_id, value) sink insert invocations made on behalf of the item. -/
inductive POutcome where
  | fulfilled : ItemResult → List (String × JsNum) → POutcome
  | rejected : List (String × JsNum) → POutcome
  | pending : POutcome
deriving DecidableEq

/-- Sink insert invocations recorded in a promise outcome. -/
def sinkCallsOf : POutcome → List (String × JsNum)
  | POutcome.fulfilled _ c => c
  | POutcome.rejected c => c
  | POutcome.pending => []

/-- processApp (src/main.ts lines 67-83): fetch the count, then record it only
when the count is non-null (NaN included: NaN is not null) and bot_id is
truthy; recordGuildCount rethrows sink failures, rejecting the promise.
sinkOk says whether the single potential insert succeeds. -/
def processApp (app : App) (responses : List HttpResponse) (sinkOk : Bool) : POutcome :=
  match (fetchGuildCount responses).1 with
  | none => POutcome.pending
  | some (FetchResult.value x) =>
    if app.bot_id ≠ "" then
      if sinkOk then POutcome.fulfilled ⟨true, some x⟩ [(app.bot_id, x)]
      else POutcome.rejected [(app.bot_id, x)]
    else POutcome.fulfilled ⟨false, none⟩ []
  | some FetchResult.nullResult => POutcome.fulfilled ⟨false, none⟩ []

/-- Environment for one processApp invocation: the attempt outcomes the remote
yields during that call and whether the sink insert (if reached) succeeds. -/
structure Trial where
  responses : List HttpResponse
  sinkOk : Bool

/-- Run one processApp invocation under a given trial environment. -/
def runTrial (app : App) (t : Trial) : POutcome :=
  processApp app t.responses t.sinkOk

/-- Failure test of src/main.ts line 117: a settled result counts as failed
unless it is fulfilled with success true (rejected promises and hung items
included). -/
def settledFailed : POutcome → Bool
  | POutcome.fulfilled r _ => !r.success
  | POutcome.rejected _ => true
  | POutcome.pending => true

/-- Success test of src/main.ts line 150: fulfilled with success true. -/
def isSuccessOutcome : POutcome → Bool
  | POutcome.fulfilled r _ => r.success
  | _ => false

/-- A promise that never settles. -/
def isPendingOutcome : POutcome → Bool
  | POutcome.pending => true
  | _ => false

/-- Lines 113-122 of src/main.ts: the sub-list of the current pending apps
whose settled result failed, preserving order. -/
def roundFailedApps (pending : List App) (outcomes : List POutcome) : List App :=
  ((pending.zip outcomes).filter (fun p => settledFailed p.2)).map Prod.fst

/-- One fetch event of the run trace: which app id was submitted to
processApp, and in which sub-round of its batch. -/
abbrev FetchEvent := String × Nat

/-- The sub-round retry loop for one batch (src/main.ts lines 102-133):
resubmit exactly the failed subset until a round has no failures, then
return ONLY that final round's settled results (batchResults holds the last
Promise.allSettled value). The trace lists every processApp submission in
chronological order. Fuel bounds the unbounded while loop; none models a
run that has not finished within the fuel (or hangs on a pending promise,
which stalls Promise.allSettled forever). -/
def runBatchLoop (behavior : App → Nat → Trial) :
    Nat → Nat → List App → Option (List POutcome × List FetchEvent)
  | 0, _, _ => none
  | fuel + 1, round, pending =>
    let outcomes := pending.map (fun a => runTrial a (behavior a round))
    let events : List FetchEvent := pending.map (fun a => (a.id, round))
    if outcomes.any isPendingOutcome then none
    else
      let failedApps := roundFailedApps pending outcomes
      if failedApps.isEmpty then some (outcomes, events)
      else
        match runBatchLoop behavior fuel (round + 1) failedApps with
        | none => none
        | some (res, evs) => some (res, events ++ evs)

/-- Structural worker for the batch partition: fuel bounds the recursion depth
and any fuel at least the list length yields the full partition (each step
consumes one fuel and at least one element). -/
def chunksAux : Nat → List App → List (List App)
  | _, [] => []
  | 0, _ :: _ => []
  | fuel + 1, a :: rest => ((a :: rest).take 10) :: chunksAux fuel ((a :: rest).drop 10)

/-- The batch partition of src/main.ts lines 98-99: consecutive slices of at
most 10 items (concurrencyLimit), preserving order. -/
def chunksOf10 (l : List App) : List (List App) := chunksAux l.length l

/-- Sequential execution of the batches (the for loop of src/main.ts
lines 98-142): each batch's sub-round loop runs to completion before the
next batch starts; results and fetch events accumulate in order. -/
def runBatches (behavior : App → Nat → Trial) (fuel : Nat) :
    List (List App) → Option (List POutcome × List FetchEvent)
  | [] => some ([], [])
  | b :: bs =>
    match runBatchLoop behavior fuel 0 b with
    | none => none
    | some (rs, evs) =>
      match runBatches behavior fuel bs with
      | none => none
      | some (rs2, evs2) => some (rs ++ rs2, evs ++ evs2)

/-- updateAllApplications (src/main.ts lines 85-161) restricted to its
result-collecting core: partition into batches of 10 and run them in
sequence. -/
def updateAll (behavior : App → Nat → Trial) (fuel : Nat) (apps : List App) :
    Option (List POutcome × List FetchEvent) :=
  runBatches behavior fuel (chunksOf10 apps)

/-- The tally of src/main.ts lines 147-155 over the collected results:
(successful, failed). -/
def runReport (rs : List POutcome) : Nat × Nat :=
  (rs.countP isSuccessOutcome, rs.countP (fun r => !isSuccessOutcome r))

/-- The startup configuration code of src/main.ts lines 5-12: WORKER_URL is
read without any check; only DATABASE_URL is validated, with the JavaScript
falsiness test of line 8 (if (!DATABASE_URL) throw), which throws both when
the variable is unset and when it is set to the empty string. Returns the
pair (WORKER_URL, DATABASE_URL) the process starts with. -/
def startupCheck (workerUrl databaseUrl : Option String) :
    Except String (Option String × String) :=
  match databaseUrl with
  | none => Except.error "DATABASE_URL environment variable is not set"
  | some db =>
    if db.isEmpty then Except.error "DATABASE_URL environment variable is not set"
    else Except.ok (workerUrl, db)

/-- A 2xx body whose directory_entry.guild_count is the number 42. -/
def okBody42 : ResponseBody := ⟨some ⟨some (JsVal.num (JsNum.val 42))⟩, none⟩

/-- A 2xx body with neither count shape present. -/
def emptyBody : ResponseBody := ⟨none, none⟩

/-- A 2xx body carrying both numeric fields (42 and 7). -/
def bothBody : ResponseBody :=
  ⟨some ⟨some (JsVal.num (JsNum.val 42))⟩, some ⟨some (JsVal.num (JsNum.val 7))⟩⟩

def appA : App := ⟨"a", "X"⟩

def appB : App := ⟨"b", "Y"⟩

def appC : App := ⟨"c", "Z"⟩

def appX : App := ⟨"x", "X"⟩

def appEmptyKey : App := ⟨"e", ""⟩

/-- Trial that fetches the value 42 and whose sink insert succeeds. -/
def trialValue : Trial := ⟨[HttpResponse.ok okBody42], true⟩

/-- Trial whose fetch terminates with null (no usable count in the body). -/
def trialNull : Trial := ⟨[HttpResponse.ok emptyBody], true⟩

/-- Trial that fetches the value 42 but whose sink insert throws. -/
def trialSinkFail : Trial := ⟨[HttpResponse.ok okBody42], false⟩

/-- Behavior for the C1 failing input: app b yields null in sub-round 0 and a
value afterwards; every other call yields a value immediately. -/
def behC1 : App → Nat → Trial :=
  fun a k => if a.id = "b" ∧ k = 0 then trialNull else trialValue

/-- Behavior for C3: every app yields null in sub-round 0, a value after. -/
def behC3 : App → Nat → Trial :=
  fun _ k => if k = 0 then trialNull else trialValue

/-- Behavior for C8: the sink insert fails in sub-round 0 and succeeds in
every later sub-round; the fetch always yields 42. -/
def behC8 : App → Nat → Trial :=
  fun _ k => if k = 0 then trialSinkFail else trialValue

lemma fetchLoop_replicate_networkError (n delay : Nat) :
    (fetchLoop (List.replicate n HttpResponse.networkError) delay).1 = none := by
  induction n generalizing delay with
  | zero => rfl
  | succ k ih =>
    simpa [List.replicate_succ, fetchLoop] using ih (min (delay * 2) 60000)

/-- Claim C1 (code_bug): on a 2-item input where item b needs one sub-round
retry, the final tally is successful + failed = 1, not 2: success and
failure are counted only over the final sub-round's results, because the
code overwrites batchResults each sub-round and pushes only the last one,
dropping item a's earlier success. -/
theorem C1_tally_drops_resubmitted_items :
    (updateAll behC1 3 [appA, appB]).map
        (fun p => (runReport p.1).1 + (runReport p.1).2) = some 1 ∧
    [appA, appB].length = 2 := by
  exact ⟨rfl, rfl⟩

/-- Claim C2 counterexample: after 5 consecutive transient errors the retry
loop of src/main.ts has produced no result at all — it is still waiting for
a sixth attempt — rather than terminating with one failed ItemResult after
maxAttempts = 5; no sink call was made. -/
theorem C2_counterexample_five_errors_no_result :
    (fetchGuildCount (List.replicate 5 HttpResponse.networkError)).1 = none ∧
    processApp appA (List.replicate 5 HttpResponse.networkError) true = POutcome.pending ∧
    sinkCallsOf (processApp appA (List.replicate 5 HttpResponse.networkError) true) = [] := by
  exact ⟨rfl, rfl, rfl⟩

/-- Claim C2 amended: the per-item retry loop of src/main.ts is unbounded
(while true, no attempt counter): for every number n of consecutive
transient errors and every starting backoff delay, the loop has not
terminated, the item's promise is still pending, and the Result Sink has
never been invoked for the item. -/
theorem C2_unbounded_retry_never_fails (n delay : Nat) (app : App) (sinkOk : Bool) :
    (fetchLoop (List.replicate n HttpResponse.networkError) delay).1 = none ∧
    processApp app (List.replicate n HttpResponse.networkError) sinkOk = POutcome.pending ∧
    sinkCallsOf (processApp app (List.replicate n HttpResponse.networkError) sinkOk) = [] := by
  have h := fetchLoop_replicate_networkError n 1000
  refine ⟨fetchLoop_replicate_networkError n delay, ?_, ?_⟩ <;>
    simp [processApp, fetchGuildCount, h, sinkCallsOf]

/-- Claim C3 counterexample: an item whose fetch terminates normally with the
NoValue outcome (null) is NOT removed from the pending set — it is listed
among the failed apps and re-fetched in sub-round 1, as the two fetch
events of the trace show. -/
theorem C3_counterexample_noValue_retried :
    roundFailedApps [appC] [runTrial appC trialNull] = [appC] ∧
    (runBatchLoop behC3 3 0 [appC]).map Prod.snd = some [("c", 0), ("c", 1)] := by
  exact ⟨rfl, rfl⟩

/-- Claim C3 amended: the batch scheduler removes an item from the pending set
only when processApp returned success = true; an item whose retry loop
terminated normally with the NoValue outcome gets success = false and IS
re-submitted in the next sub-round. -/
theorem C3_noValue_marked_failed_and_resubmitted (app : App) (t : Trial)
    (h : (fetchGuildCount t.responses).1 = some FetchResult.nullResult) :
    runTrial app t = POutcome.fulfilled ⟨false, none⟩ [] ∧
    roundFailedApps [app] [runTrial app t] = [app] := by
  have h1 : runTrial app t = POutcome.fulfilled ⟨false, none⟩ [] := by
    simp [runTrial, processApp, h]
  refine ⟨h1, ?_⟩
  rw [h1]
  simp [roundFailedApps, settledFailed, List.filter]

theorem C3_witness :
    (fetchGuildCount trialNull.responses).1 = some FetchResult.nullResult ∧
    (runTrial appC trialNull = POutcome.fulfilled ⟨false, none⟩ [] ∧
      roundFailedApps [appC] [runTrial appC trialNull] = [appC]) :=
  ⟨rfl, C3_noValue_marked_failed_and_resubmitted appC trialNull rfl⟩

/-- Claim C4 counterexample: a 429 whose Retry-After header is present but
unparseable ("abc") makes the code pass parseInt's NaN to setTimeout, so
the wait is 0 ms — not the current backoff delay of 1000 ms that the claim
requires for an unparseable header. -/
theorem C4_counterexample_unparseable_header :
    (fetchGuildCount [HttpResponse.rateLimited (some "abc")]).2 = [(none : Option Int)] ∧
    effectiveWaitMs none = 0 ∧ (0 : Nat) ≠ 1000 := by
  refine ⟨rfl, rfl, ?_⟩
  decide

/-- Claim C4 amended: on a 429 the code waits parseInt(header) * 1000 ms
whenever the header is present and non-empty — exactly that many seconds
when it parses, and NaN (hence a 0 ms wait) when it does not parse — and
waits the current backoff delay only when the header is absent; in every
case the next iteration runs with the delay doubled and capped at 60000 ms. -/
theorem C4_rate_limit_wait (delay : Nat) (rest : List HttpResponse) :
    (∀ s : String, ∀ v : Int, s ≠ "" → jsParseInt s = some v →
      (fetchLoop (HttpResponse.rateLimited (some s) :: rest) delay).2
        = some (v * 1000) :: (fetchLoop rest (min (delay * 2) 60000)).2) ∧
    (∀ s : String, s ≠ "" → jsParseInt s = none →
      (fetchLoop (HttpResponse.rateLimited (some s) :: rest) delay).2
        = none :: (fetchLoop rest (min (delay * 2) 60000)).2) ∧
    (fetchLoop (HttpResponse.rateLimited none :: rest) delay).2
        = some (delay : Int) :: (fetchLoop rest (min (delay * 2) 60000)).2 := by
  refine ⟨?_, ?_, ?_⟩
  · intro s v hs hv
    simp [fetchLoop, jsTruthyHeader, String.isEmpty_iff, hs, hv]
  · intro s hs hv
    simp [fetchLoop, jsTruthyHeader, String.isEmpty_iff, hs, hv]
  · simp [fetchLoop, jsTruthyHeader]

theorem C4_witness :
    ("5" : String) ≠ "" ∧ jsParseInt "5" = some 5 ∧
    (fetchLoop [HttpResponse.rateLimited (some "5")] 1000).2
      = some (5 * 1000) :: (fetchLoop [] (min (1000 * 2) 60000)).2 :=
  ⟨by decide, rfl, (C4_rate_limit_wait 1000 []).1 "5" 5 (by decide) rfl⟩

/-- Claim C5: when both the directory guild-count field and the approximate
member-count field are present as well-formed (non-NaN) numbers, the
fetcher returns the directory guild-count; more strongly, whenever the
directory path holds a typeof-number value the fetcher returns it, so the
member-count fallback is reached only when the first shape has no usable
number. -/
theorem C5_directory_count_priority (body : ResponseBody) :
    (∀ n m : Int,
      body.directory_entry.bind DirectoryEntry.guild_count = some (JsVal.num (JsNum.val n)) →
      body.guild.bind GuildInfo.approximate_member_count = some (JsVal.num (JsNum.val m)) →
      extractCount body = some (JsNum.val n)) ∧
    (∀ x : JsNum,
      body.directory_entry.bind DirectoryEntry.guild_count = some (JsVal.num x) →
      extractCount body = some x) := by
  have hmain : ∀ x : JsNum,
      body.directory_entry.bind DirectoryEntry.guild_count = some (JsVal.num x) →
      extractCount body = some x := by
    intro x hd
    simp [extractCount, hd]
  exact ⟨fun n _ hd _ => hmain (JsNum.val n) hd, hmain⟩

theorem C5_witness :
    bothBody.directory_entry.bind DirectoryEntry.guild_count
        = some (JsVal.num (JsNum.val 42)) ∧
    bothBody.guild.bind GuildInfo.approximate_member_count
        = some (JsVal.num (JsNum.val 7)) ∧
    extractCount bothBody = some (JsNum.val 42) :=
  ⟨rfl, rfl, (C5_directory_count_priority bothBody).1 42 7 rfl rfl⟩

lemma chunksAux_congr (fuel : Nat) :
    ∀ (fuel' : Nat) (l : List App), l.length ≤ fuel → l.length ≤ fuel' →
      chunksAux fuel l = chunksAux fuel' l := by
  induction fuel with
  | zero =>
    intro fuel' l h _
    have hl : l = [] := List.eq_nil_of_length_eq_zero (Nat.le_zero.mp h)
    subst hl
    cases fuel' <;> rfl
  | succ f ih =>
    intro fuel' l h h'
    cases l with
    | nil => cases fuel' <;> rfl
    | cons a rest =>
      cases fuel' with
      | zero => simp at h'
      | succ f' =>
        simp only [chunksAux]
        congr 1
        apply ih
        · rw [List.length_drop]
          simp only [List.length_cons] at h ⊢
          omega
        · rw [List.length_drop]
          simp only [List.length_cons] at h' ⊢
          omega

lemma chunksOf10_nil : chunksOf10 [] = [] := rfl

lemma chunksOf10_eq_cons (l : List App) (h : l ≠ []) :
    chunksOf10 l = (l.take 10) :: chunksOf10 (l.drop 10) := by
  cases l with
  | nil => exact absurd rfl h
  | cons a rest =>
    show chunksAux (a :: rest).length (a :: rest) = _
    simp only [List.length_cons, chunksAux]
    congr 1
    apply chunksAux_congr
    · rw [List.length_drop]
      simp only [List.length_cons]
      omega
    · exact le_rfl

lemma chunksOf10_len25 (apps : List App) (h : apps.length = 25) :
    chunksOf10 apps = [apps.take 10, (apps.drop 10).take 10, apps.drop 20] := by
  have l0 : apps ≠ [] := by
    intro e; rw [e] at h; simp at h
  have ld10 : (apps.drop 10).length = 15 := by rw [List.length_drop, h]
  have ld20 : (apps.drop 20).length = 5 := by rw [List.length_drop, h]
  have l1 : apps.drop 10 ≠ [] := by
    intro e; rw [e] at ld10; simp at ld10
  have l2 : apps.drop 20 ≠ [] := by
    intro e; rw [e] at ld20; simp at ld20
  have hdd : (apps.drop 10).drop 10 = apps.drop 20 := by
    rw [List.drop_drop]
  have hd30 : (apps.drop 20).drop 10 = [] :=
    List.drop_eq_nil_of_le (by rw [ld20]; omega)
  have ht3 : (apps.drop 20).take 10 = apps.drop 20 :=
    List.take_of_length_le (by rw [ld20]; omega)
  rw [chunksOf10_eq_cons apps l0, chunksOf10_eq_cons _ l1, hdd,
      chunksOf10_eq_cons _ l2, hd30, ht3, chunksOf10_nil]

/-- Claim C6: a 25-item list is partitioned, in original order, into exactly
three consecutive batches of sizes 10, 10 and 5 whose concatenation is the
input list, and the run is the strictly sequential composition of the three
batch sub-round loops: the collected results and the chronological fetch
trace are the per-batch ones concatenated in batch order, so no fetch of a
later batch precedes any fetch (sub-round retries included) of an earlier
one. -/
theorem C6_batch_partition_sequential (apps : List App) (behavior : App → Nat → Trial)
    (fuel : Nat) (h : apps.length = 25) :
    (chunksOf10 apps).map List.length = [10, 10, 5] ∧
    (chunksOf10 apps).flatten = apps ∧
    (∀ rs evs, updateAll behavior fuel apps = some (rs, evs) →
      ∃ r1 e1 r2 e2 r3 e3,
        runBatchLoop behavior fuel 0 (apps.take 10) = some (r1, e1) ∧
        runBatchLoop behavior fuel 0 ((apps.drop 10).take 10) = some (r2, e2) ∧
        runBatchLoop behavior fuel 0 (apps.drop 20) = some (r3, e3) ∧
        rs = r1 ++ (r2 ++ r3) ∧ evs = e1 ++ (e2 ++ e3)) := by
  have hc := chunksOf10_len25 apps h
  refine ⟨?_, ?_, ?_⟩
  · rw [hc]
    simp [List.length_take, List.length_drop, h]
  · rw [hc]
    have hdd : apps.drop 20 = (apps.drop 10).drop 10 := by
      rw [List.drop_drop]
    simp only [List.flatten_cons, List.flatten_nil, List.append_nil]
    rw [hdd, List.take_append_drop, List.take_append_drop]
  · intro rs evs hu
    rw [updateAll, hc] at hu
    simp only [runBatches] at hu
    cases hb1 : runBatchLoop behavior fuel 0 (apps.take 10) with
    | none => rw [hb1] at hu; simp at hu
    | some p1 =>
      obtain ⟨r1, e1⟩ := p1
      rw [hb1] at hu
      cases hb2 : runBatchLoop behavior fuel 0 ((apps.drop 10).take 10) with
      | none => rw [hb2] at hu; simp at hu
      | some p2 =>
        obtain ⟨r2, e2⟩ := p2
        rw [hb2] at hu
        cases hb3 : runBatchLoop behavior fuel 0 (apps.drop 20) with
        | none => rw [hb3] at hu; simp at hu
        | some p3 =>
          obtain ⟨r3, e3⟩ := p3
          rw [hb3] at hu
          simp only [List.append_nil, Option.some.injEq, Prod.mk.injEq] at hu
          exact ⟨r1, e1, r2, e2, r3, e3, rfl, rfl, rfl, hu.1.symm, hu.2.symm⟩

theorem C6_witness :
    (List.replicate 25 appA).length = 25 ∧
    ((chunksOf10 (List.replicate 25 appA)).map List.length = [10, 10, 5] ∧
      (chunksOf10 (List.replicate 25 appA)).flatten = List.replicate 25 appA ∧
      (∀ rs evs,
        updateAll (fun _ _ => trialValue) 1 (List.replicate 25 appA) = some (rs, evs) →
        ∃ r1 e1 r2 e2 r3 e3,
          runBatchLoop (fun _ _ => trialValue) 1 0 ((List.replicate 25 appA).take 10)
            = some (r1, e1) ∧
          runBatchLoop (fun _ _ => trialValue) 1 0 (((List.replicate 25 appA).drop 10).take 10)
            = some (r2, e2) ∧
          runBatchLoop (fun _ _ => trialValue) 1 0 ((List.replicate 25 appA).drop 20)
            = some (r3, e3) ∧
          rs = r1 ++ (r2 ++ r3) ∧ evs = e1 ++ (e2 ++ e3))) :=
  ⟨by simp,
    C6_batch_partition_sequential (List.replicate 25 appA) (fun _ _ => trialValue) 1 (by simp)⟩

/-- Claim C7 counterexample: with WORKER_URL (base_url) absent from the
environment and DATABASE_URL present, startup succeeds — the process does
not fail fast, contradicting the claim that both required parameters are
checked. -/
theorem C7_counterexample_missing_worker_url_starts :
    startupCheck none (some "mysql://db") = Except.ok (none, "mysql://db") := rfl

/-- Claim C7 amended: only the Result Sink target (DATABASE_URL) is checked at
startup — the process fails fast exactly when DATABASE_URL is falsy (unset,
or set to the empty string), and starts for any WORKER_URL value (present or
absent) whenever DATABASE_URL is a non-empty string. -/
theorem C7_only_database_url_checked :
    (∀ w : Option String,
      startupCheck w none
        = Except.error "DATABASE_URL environment variable is not set") ∧
    (∀ w : Option String,
      startupCheck w (some "")
        = Except.error "DATABASE_URL environment variable is not set") ∧
    (∀ (w : Option String) (db : String), db ≠ "" →
      startupCheck w (some db) = Except.ok (w, db)) := by
  refine ⟨fun _ => rfl, fun _ => rfl, ?_⟩
  intro w db hdb
  simp [startupCheck, String.isEmpty_iff, hdb]

theorem C7_witness :
    ("mysql://db" : String) ≠ "" ∧
    startupCheck (some "https://w") (some "mysql://db")
      = Except.ok (some "https://w", "mysql://db") :=
  ⟨by decide,
    C7_only_database_url_checked.2.2 (some "https://w") "mysql://db" (by decide)⟩

/-- Claim C8 counterexample: one item whose fetch yields 42 but whose first
sink insert throws is re-submitted — its fetch runs again in sub-round 1
(two fetch events in the trace), and the run's report counts it successful,
not failed; so "the item's fetch is not retried" and "counted as failed"
are both false on the code. -/
theorem C8_counterexample_sink_failure_refetches :
    runBatchLoop behC8 3 0 [appX] =
      some ([POutcome.fulfilled ⟨true, some (JsNum.val 42)⟩ [("X", JsNum.val 42)]],
            [("x", 0), ("x", 1)]) ∧
    runReport [POutcome.fulfilled ⟨true, some (JsNum.val 42)⟩ [("X", JsNum.val 42)]]
      = (1, 0) :=
  ⟨rfl, rfl⟩

/-- Claim C8 amended: a sink insert failure does not crash the run — the
rejected promise is captured by Promise.allSettled and the batch continues
— but the item is treated as failed for that sub-round and re-submitted, so
its fetch IS retried because of the sink failure; when the retry succeeds
the item's final recorded outcome is that successful one. -/
theorem C8_sink_failure_resubmits (app : App) (behavior : App → Nat → Trial) (fuel : Nat)
    (c : List (String × JsNum))
    (h0 : runTrial app (behavior app 0) = POutcome.rejected c)
    (h1 : isSuccessOutcome (runTrial app (behavior app 1)) = true) :
    runBatchLoop behavior (fuel + 2) 0 [app]
      = some ([runTrial app (behavior app 1)], [(app.id, 0), (app.id, 1)]) := by
  cases ho : runTrial app (behavior app 1) with
  | fulfilled r c2 =>
    rw [ho] at h1
    simp only [isSuccessOutcome] at h1
    simp [runBatchLoop, h0, ho, h1, roundFailedApps, settledFailed,
      isPendingOutcome, List.filter]
  | rejected c2 =>
    rw [ho] at h1
    simp [isSuccessOutcome] at h1
  | pending =>
    rw [ho] at h1
    simp [isSuccessOutcome] at h1

theorem C8_witness :
    runTrial appX (behC8 appX 0) = POutcome.rejected [("X", JsNum.val 42)] ∧
    isSuccessOutcome (runTrial appX (behC8 appX 1)) = true ∧
    runBatchLoop behC8 (1 + 2) 0 [appX]
      = some ([runTrial appX (behC8 appX 1)], [(appX.id, 0), (appX.id, 1)]) :=
  ⟨rfl, rfl, C8_sink_failure_resubmits appX behC8 1 [("X", JsNum.val 42)] rfl rfl⟩

lemma processApp_eq_of_none (app : App) (responses : List HttpResponse) (sinkOk : Bool)
    (hf : (fetchGuildCount responses).1 = none) :
    processApp app responses sinkOk = POutcome.pending := by
  unfold processApp
  rw [hf]

lemma processApp_eq_of_value (app : App) (responses : List HttpResponse) (sinkOk : Bool)
    (x : JsNum) (hf : (fetchGuildCount responses).1 = some (FetchResult.value x)) :
    processApp app responses sinkOk =
      if app.bot_id ≠ "" then
        if sinkOk then POutcome.fulfilled ⟨true, some x⟩ [(app.bot_id, x)]
        else POutcome.rejected [(app.bot_id, x)]
      else POutcome.fulfilled ⟨false, none⟩ [] := by
  unfold processApp
  rw [hf]

lemma processApp_eq_of_nullResult (app : App) (responses : List HttpResponse) (sinkOk : Bool)
    (hf : (fetchGuildCount responses).1 = some FetchResult.nullResult) :
    processApp app responses sinkOk = POutcome.fulfilled ⟨false, none⟩ [] := by
  unfold processApp
  rw [hf]

/-- Claim C9: the success field of an ItemResult is a function only of the
FetchOutcome sequence the fetcher yields during that call (and the item
itself): two resolutions of the same item over the same outcome sequence
that both settle with an ItemResult agree on success, whatever the sink
state of each call — there is no shared mutable state between calls
(attempt and delay are locals of fetchGuildCount). -/
theorem C9_success_deterministic (app : App) (responses : List HttpResponse)
    (s1 s2 : Bool) (r1 r2 : ItemResult) (c1 c2 : List (String × JsNum))
    (h1 : processApp app responses s1 = POutcome.fulfilled r1 c1)
    (h2 : processApp app responses s2 = POutcome.fulfilled r2 c2) :
    r1.success = r2.success := by
  cases hf : (fetchGuildCount responses).1 with
  | none =>
    rw [processApp_eq_of_none app responses s1 hf] at h1
    exact POutcome.noConfusion h1
  | some fr =>
    cases fr with
    | value x =>
      rw [processApp_eq_of_value app responses s1 x hf] at h1
      rw [processApp_eq_of_value app responses s2 x hf] at h2
      by_cases hb : app.bot_id = ""
      · rw [if_neg (fun hne => hne hb)] at h1 h2
        cases h1
        cases h2
        rfl
      · rw [if_pos hb] at h1 h2
        cases s1 with
        | false =>
          rw [if_neg Bool.false_ne_true] at h1
          exact POutcome.noConfusion h1
        | true =>
          cases s2 with
          | false =>
            rw [if_neg Bool.false_ne_true] at h2
            exact POutcome.noConfusion h2
          | true =>
            rw [if_pos rfl] at h1 h2
            cases h1
            cases h2
            rfl
    | nullResult =>
      rw [processApp_eq_of_nullResult app responses s1 hf] at h1
      rw [processApp_eq_of_nullResult app responses s2 hf] at h2
      cases h1
      cases h2
      rfl

theorem C9_witness :
    processApp appA [HttpResponse.ok okBody42] true
        = POutcome.fulfilled ⟨true, some (JsNum.val 42)⟩ [("X", JsNum.val 42)] ∧
    (⟨true, some (JsNum.val 42)⟩ : ItemResult).success
        = (⟨true, some (JsNum.val 42)⟩ : ItemResult).success :=
  ⟨rfl,
    C9_success_deterministic appA [HttpResponse.ok okBody42] true true
      ⟨true, some (JsNum.val 42)⟩ ⟨true, some (JsNum.val 42)⟩
      [("X", JsNum.val 42)] [("X", JsNum.val 42)] rfl rfl⟩

/-- Claim C10: for an item whose bot_id is falsy (the empty string), even a
fetch that yields a numeric value leads to no sink invocation and an
ItemResult with success = false, and the scheduler lists the item among the
round's failed apps, re-submitting it in the next sub-round. -/
theorem C10_falsy_key_no_sink (app : App) (responses : List HttpResponse) (sinkOk : Bool)
    (x : JsNum) (hb : app.bot_id = "")
    (hf : (fetchGuildCount responses).1 = some (FetchResult.value x)) :
    processApp app responses sinkOk = POutcome.fulfilled ⟨false, none⟩ [] ∧
    sinkCallsOf (processApp app responses sinkOk) = [] ∧
    roundFailedApps [app] [processApp app responses sinkOk] = [app] := by
  have h1 : processApp app responses sinkOk = POutcome.fulfilled ⟨false, none⟩ [] := by
    simp [processApp, hf, hb]
  refine ⟨h1, ?_, ?_⟩
  · rw [h1]
    rfl
  · rw [h1]
    simp [roundFailedApps, settledFailed, List.filter]

theorem C10_witness :
    appEmptyKey.bot_id = "" ∧
    (fetchGuildCount [HttpResponse.ok okBody42]).1 = some (FetchResult.value (JsNum.val 42)) ∧
    (processApp appEmptyKey [HttpResponse.ok okBody42] true
        = POutcome.fulfilled ⟨false, none⟩ [] ∧
      sinkCallsOf (processApp appEmptyKey [HttpResponse.ok okBody42] true) = [] ∧
      roundFailedApps [appEmptyKey] [processApp appEmptyKey [HttpResponse.ok okBody42] true]
        = [appEmptyKey]) :=
  ⟨rfl, rfl, C10_falsy_key_no_sink appEmptyKey [HttpResponse.ok okBody42] true (JsNum.val 42) rfl rfl⟩
